import Mathlib

/-!
Verification of `timesketch/lib/llms/providers/contrib/openai.py`:
a shallow embedding of the OpenAI LLM provider (construction, request
building, invocation, error classification, structured-output parsing)
together with theorems checking the design specification against it.
-/

namespace Timesketch

/-! ## Python-like dynamic values

The transport's response object is accessed dynamically in the source
(`response.choices[0].message.content`), and each access can fail with a
Python exception depending on the runtime shape.  We model the dynamic
value space and the semantics of attribute access and subscripting. -/

/-- A dynamic (Python-like) value: an attribute-carrying object, a list,
a string, or `None`. -/
inductive PyObj : Type where
  | obj (fields : List (String × PyObj))
  | pylist (items : List PyObj)
  | pystr (s : String)
  | pynone

/-- The Python exception classes relevant to the extraction step. The
source's handler catches `AttributeError`, `IndexError` and `KeyError`;
a `TypeError` is not caught by any handler in `generate`. -/
inductive Exc : Type where
  | attrError
  | indexError
  | keyError
  | typeError
deriving Repr, DecidableEq

/-- Field lookup in an attribute list (first match wins). -/
def lookupField : List (String × PyObj) → String → Option PyObj
  | [], _ => none
  | (k, v) :: rest, name => if k = name then some v else lookupField rest name

/-- Python attribute access `x.name`: objects expose their fields; a
missing field, or access on a list, string or `None`, raises
`AttributeError`. -/
def getattrPy : PyObj → String → Except Exc PyObj
  | .obj fields, name =>
    match lookupField fields name with
    | some v => .ok v
    | none => .error .attrError
  | .pylist _, _ => .error .attrError
  | .pystr _, _ => .error .attrError
  | .pynone, _ => .error .attrError

/-- Python subscripting `x[0]`: a list yields its head or raises
`IndexError` when empty; a string yields its first character or raises
`IndexError` when empty; subscripting a non-subscriptable object or
`None` raises `TypeError`. -/
def getitem0 : PyObj → Except Exc PyObj
  | .pylist items =>
    match items with
    | [] => .error .indexError
    | x :: _ => .ok x
  | .pystr s =>
    if s = "" then .error .indexError else .ok (.pystr (String.mk (s.data.take 1)))
  | .obj _ => .error .typeError
  | .pynone => .error .typeError

/-- The extraction `response.choices[0].message.content` from
`OpenAI.generate` (line 100 of the source). -/
def extractContent (resp : PyObj) : Except Exc PyObj := do
  let choices ← getattrPy resp "choices"
  let first ← getitem0 choices
  let msg ← getattrPy first "message"
  getattrPy msg "content"

/-! ## Configuration and construction -/

/-- `ProviderConfig`: the provider-specific configuration dictionary.
A `none` field models an absent key; `some ""` models a present empty
value.  Floats (`temperature`, `top_p`) are modelled as exact rationals:
the provider only passes them through, never computes with them. -/
structure Config : Type where
  api_key : Option String := none
  model : Option String := none
  base_url : Option String := none
  timeout : Option Nat := none
  max_output_tokens : Option Nat := none
  temperature : Option Rat := none
  top_p : Option Rat := none
deriving Repr, DecidableEq

/-- Python truthiness of an optional string: `not x` is true exactly
when the key is absent or the string is empty. -/
def truthyStr : Option String → Bool
  | none => false
  | some s => !(s == "")

/-- `DEFAULT_TIMEOUT` from the source (line 16). -/
def DEFAULT_TIMEOUT : Nat := 60

/-- Modelled from the spec: the shared interface-level generation
defaults (`interface.DEFAULT_MAX_OUTPUT_TOKENS`,
`interface.DEFAULT_TEMPERATURE`, `interface.DEFAULT_TOP_P`).  The
`interface` module is not among the sources; the spec says only that a
shared default set supplies these values, so they are parameters of the
model and every theorem quantifies over them. -/
structure InterfaceDefaults : Type where
  max_output_tokens : Nat
  temperature : Rat
  top_p : Rat
deriving Repr, DecidableEq

/-- The vendor SDK client handle. `OpenAI.__init__` (lines 57-60)
passes exactly `api_key` and `timeout` to the SDK constructor; every
other SDK parameter keeps its SDK default, in particular `base_url`
stays the SDK's canonical endpoint. -/
structure OpenAIClient : Type where
  api_key : String
  timeout : Nat
  base_url : String
deriving Repr, DecidableEq

/-- The SDK's default API endpoint, used when no `base_url` argument is
given to the SDK constructor. -/
def sdkDefaultBaseUrl : String := "https://api.openai.com/v1"

/-- The SDK client constructor as invoked by the source: only
`api_key` and `timeout` are supplied, so `base_url` is the SDK
default. -/
def mkOpenAIClient (api_key : String) (t : Nat) : OpenAIClient :=
  { api_key := api_key, timeout := t, base_url := sdkDefaultBaseUrl }

/-- A constructed provider: the stored config (set by the base class),
the resolved `api_key` and `model`, and the eagerly constructed SDK
client handle. -/
structure OpenAIProvider : Type where
  config : Config
  api_key : String
  model : String
  client : OpenAIClient
deriving Repr, DecidableEq

/-- `OpenAI.__init__` (lines 28-60).  The base class stores the config
unchanged (modelled from the spec: `interface.LLMProvider.__init__` is
not among the sources; the spec and the provider's own `self.config.get`
calls require `self.config = config`).  Validation: falsy `api_key`
fails first, then falsy `model`; on success the SDK client is built
from the resolved `api_key` and `timeout` (default 60). -/
def OpenAI_init (config : Config) : Except String OpenAIProvider :=
  let api_key := config.api_key
  let model := config.model
  let t := config.timeout.getD DEFAULT_TIMEOUT
  if !truthyStr api_key then
    .error "api_key is required for OpenAI provider"
  else if !truthyStr model then
    .error "model is required for OpenAI provider"
  else
    .ok { config := config
          api_key := api_key.getD ""
          model := model.getD ""
          client := mkOpenAIClient (api_key.getD "") t }

/-! ## Request building -/

/-- A JSON-schema dictionary as passed for `response_schema`
(`Optional[dict]` in the source).  Only its truthiness is consulted. -/
def Schema : Type := List (String × PyObj)

/-- Python truthiness of the optional `response_schema` argument:
`if response_schema:` is true exactly when the argument is supplied and
the dict is non-empty. -/
def truthyDict : Option Schema → Bool
  | none => false
  | some d => !d.isEmpty

/-- One chat message of the request payload. -/
structure ChatMessage : Type where
  role : String
  content : String
deriving Repr, DecidableEq

/-- The `response_format` payload entry signalling structured output. -/
structure ResponseFormat : Type where
  type : String
deriving Repr, DecidableEq

/-- The request payload `create_kwargs` (lines 80-96); `response_format`
is `none` when the key is not added. -/
structure CreateKwargs : Type where
  model : String
  messages : List ChatMessage
  max_tokens : Nat
  temperature : Rat
  top_p : Rat
  response_format : Option ResponseFormat
deriving Repr, DecidableEq

/-- Request building (lines 80-96): `model` from the provider, a single
user message with the prompt, generation parameters from the config
with interface-level defaults, and `response_format` set to
`json_object` exactly when `response_schema` is truthy. -/
def buildCreateKwargs (d : InterfaceDefaults) (p : OpenAIProvider)
    (prompt : String) (response_schema : Option Schema) : CreateKwargs :=
  { model := p.model
    messages := [{ role := "user", content := prompt }]
    max_tokens := p.config.max_output_tokens.getD d.max_output_tokens
    temperature := p.config.temperature.getD d.temperature
    top_p := p.config.top_p.getD d.top_p
    response_format :=
      if truthyDict response_schema then some { type := "json_object" } else none }

/-! ## Invocation, error classification, structured parsing -/

/-- The outcome of the single transport call
`self.client.chat.completions.create(**create_kwargs)`: a response
object, or one of the SDK exception classes.  The constructors denote
the most-derived raised class; the source's `except` clauses are
ordered so that `APITimeoutError` (a subclass of `APIConnectionError`)
is caught before `APIConnectionError`/`APIError`, and any remaining
`OpenAIError` last. -/
inductive TransportOutcome : Type where
  | success (resp : PyObj)
  | timeout (cause : String)
  | connectionError (cause : String)
  | apiError (cause : String)
  | otherOpenAIError (cause : String)

/-- The exceptions `generate` lets escape to the caller: every
classified failure is a `ValueError` with a message; a `TypeError` is
never caught by `generate`'s handlers. -/
inductive PyError : Type where
  | valueError (msg : String)
  | typeError (msg : String)

/-- A successful `generate` result: raw extracted content (no schema)
or a parsed structured value (schema supplied). -/
inductive GenResult : Type where
  | text (content : PyObj)
  | structured (value : PyObj)

/-- The constant message of the shape-mismatch error (lines 107-110);
it never depends on the response body. -/
def unexpectedStructureMsg : String :=
  "Unexpected response structure from OpenAI API. Please check your model and API configuration."

/-- Python slicing `s[:n]` on a string (by characters). -/
def strTake (s : String) (n : Nat) : String := String.mk (s.data.take n)

/-- The truncation of the offending text in the JSON-parse error
(lines 119-123): strings over 100 characters are cut to their first 100
characters plus `"..."`. -/
def truncateForError (response_data : String) : String :=
  if response_data.length > 100 then strTake response_data 100 ++ "..." else response_data

/-- The JSON-parse failure message (line 125). -/
def jsonParseErrMsg (response_data : String) : String :=
  "Error JSON parsing response (first 100 chars): " ++ truncateForError response_data

/-- The message-prefix of each classified failure class (§4.3 of the
design). -/
def timeoutPre : String := "Request timed out"

/-- Prefix of transport-level failures other than timeout. -/
def transportPre : String := "Error making request"

/-- Prefix of shape-mismatch failures. -/
def shapePre : String := "Unexpected response structure"

/-- Prefix of JSON-parse failures in structured mode. -/
def jsonPre : String := "Error JSON parsing response"

/-- `OpenAI.generate` (lines 62-128) applied to a single transport
outcome.  `jsonLoads` is the Python `json.loads` oracle: `some v` on
parseable input, `none` for a `json.JSONDecodeError`; `json.loads`
applied to a non-string raises `TypeError`, which no handler in
`generate` catches. -/
def generateOnce (d : InterfaceDefaults) (jsonLoads : String → Option PyObj)
    (p : OpenAIProvider) (prompt : String) (response_schema : Option Schema)
    (outcome : TransportOutcome) : Except PyError GenResult :=
  let _kwargs := buildCreateKwargs d p prompt response_schema
  match outcome with
  | .timeout cause => .error (.valueError ("Request timed out: " ++ cause))
  | .connectionError cause => .error (.valueError ("Error making request: " ++ cause))
  | .apiError cause => .error (.valueError ("Error making request: " ++ cause))
  | .otherOpenAIError cause => .error (.valueError ("OpenAI API error: " ++ cause))
  | .success resp =>
    match extractContent resp with
    | .error .typeError =>
      .error (.typeError "unhandled TypeError during response extraction")
    | .error _ => .error (.valueError unexpectedStructureMsg)
    | .ok response_data =>
      if truthyDict response_schema then
        match response_data with
        | .pystr s =>
          match jsonLoads s with
          | some v => .ok (.structured v)
          | none => .error (.valueError (jsonParseErrMsg s))
        | _ => .error (.typeError "the JSON object must be str, bytes or bytearray")
      else
        .ok (.text response_data)

/-- One `generate` invocation against a transport modelled as a queue
of prepared outcomes: the source issues exactly one
`chat.completions.create` call (line 99), so exactly one outcome is
consumed and the remainder of the queue is returned untouched.  The
empty-queue case is unreachable for a live transport and yields a
sentinel error. -/
def generateRun (d : InterfaceDefaults) (jsonLoads : String → Option PyObj)
    (p : OpenAIProvider) (prompt : String) (response_schema : Option Schema)
    (transcript : List TransportOutcome) :
    Except PyError GenResult × List TransportOutcome :=
  match transcript with
  | [] => (.error (.valueError "transport exhausted"), [])
  | o :: rest => (generateOnce d jsonLoads p prompt response_schema o, rest)

/-- Whether a `generate` outcome is a classified (`ValueError`)
failure. -/
def isValueError : Except PyError GenResult → Bool
  | .error (.valueError _) => true
  | _ => false

/-- Whether a `generate` outcome is raw text. -/
def isRawText : Except PyError GenResult → Bool
  | .ok (.text _) => true
  | _ => false

/-- A well-shaped transport response with the given `content` value at
`choices[0].message.content`. -/
def wrapContent (c : PyObj) : PyObj :=
  .obj [("choices", .pylist [.obj [("message", .obj [("content", c)])]])]

/-! ## Concrete fixtures used by witnesses and counterexamples -/

/-- Arbitrary concrete interface-level defaults. -/
def d0 : InterfaceDefaults :=
  { max_output_tokens := 1000, temperature := 1, top_p := 1 }

/-- A `json.loads` oracle on which every parse fails. -/
def jlNone : String → Option PyObj := fun _ => none

/-- A minimal valid configuration. -/
def cfg0 : Config := { api_key := some "k", model := some "m" }

/-- The provider constructed from `cfg0`. -/
def prov0 : OpenAIProvider :=
  { config := cfg0, api_key := "k", model := "m", client := mkOpenAIClient "k" 60 }

/-- A provider agreeing with `prov0` on config and model but holding a
different client handle. -/
def prov0alt : OpenAIProvider :=
  { config := cfg0, api_key := "k", model := "m", client := mkOpenAIClient "k" 61 }

/-- The configuration of the repository's own
`test_init_custom_base_url` test: a custom `base_url` alongside valid
credentials. -/
def cfgCustom : Config :=
  { api_key := some "test-key", model := some "gpt-4",
    base_url := some "https://custom.openai.com" }

/-- The provider the source constructs from `cfgCustom`. -/
def provCustom : OpenAIProvider :=
  { config := cfgCustom, api_key := "test-key", model := "gpt-4",
    client := mkOpenAIClient "test-key" 60 }

/-! ## Helper lemmas -/

/-- Extraction succeeds on a well-shaped response and returns the
content value. -/
theorem extractContent_wrapContent (c : PyObj) :
    extractContent (wrapContent c) = .ok c := rfl

/-- String append acts as list append on the character data. -/
theorem strData_append (a b : String) : (a ++ b).data = a.data ++ b.data := rfl

/-- A list starting with `a` is never a prefix of one starting with a
different head. -/
theorem cons_not_prefix_cons {a b : Char} {p l : List Char} (hab : a ≠ b) :
    ¬ (a :: p) <+: (b :: l) := by
  rintro ⟨t, ht⟩
  rw [List.cons_append] at ht
  exact hab (List.cons.injEq .. ▸ ht).1

/-- If `p` and `q` already disagree on their first `k` characters then
`p` is not a prefix of `q ++ t` for any continuation `t`. -/
theorem not_prefix_append_of_take_ne {p q : List Char} (t : List Char) (k : Nat)
    (hkp : k ≤ p.length) (hkq : k ≤ q.length) (hne : p.take k ≠ q.take k) :
    ¬ p <+: (q ++ t) := by
  intro hp
  apply hne
  have he := List.prefix_iff_eq_take.mp hp
  have h2 : p.take k = ((q ++ t).take p.length).take k := by rw [← he]
  rw [List.take_take, min_eq_left hkp] at h2
  rw [h2, List.take_append_eq_append_take, Nat.sub_eq_zero_of_le hkq, List.take_zero,
    List.append_nil]

/-- A prefix of the constant part is a prefix of the whole message. -/
theorem prefix_append_str (pre mid c : String) (h : pre.data <+: mid.data) :
    pre.data <+: (mid ++ c).data := by
  rw [strData_append]
  exact h.trans (List.prefix_append _ _)

/-- The shape-mismatch branch of `generate`: any extraction failure by
one of the caught exception classes yields the constant classified
error. -/
theorem shape_branch_const (d : InterfaceDefaults) (jl : String → Option PyObj)
    (p : OpenAIProvider) (prompt : String) (sch : Option Schema)
    (r : PyObj) (ex : Exc) (hr : extractContent r = .error ex) (hex : ex ≠ .typeError) :
    generateOnce d jl p prompt sch (.success r)
      = .error (.valueError unexpectedStructureMsg) := by
  cases ex with
  | typeError => exact absurd rfl hex
  | attrError => simp [generateOnce, hr]
  | indexError => simp [generateOnce, hr]
  | keyError => simp [generateOnce, hr]

/-! ## Claim theorems -/

/-- C2: a config with falsy (missing or empty) `api_key` makes
construction fail with the "api_key is required" `ValueError`; with a
truthy `api_key` but falsy `model` it fails with "model is required";
in both cases no provider is produced (the result is `.error`). -/
theorem init_config_validation (cfg : Config) :
    (truthyStr cfg.api_key = false →
      OpenAI_init cfg = .error "api_key is required for OpenAI provider")
  ∧ (truthyStr cfg.api_key = true → truthyStr cfg.model = false →
      OpenAI_init cfg = .error "model is required for OpenAI provider") := by
  constructor
  · intro h
    simp [OpenAI_init, h]
  · intro h1 h2
    simp [OpenAI_init, h1, h2]

/-- Witness for C2: both failures are independently triggerable — a
config with only `model` hits the api_key check, a config with only
`api_key` hits the model check. -/
theorem init_config_validation_witness :
    OpenAI_init { api_key := none, model := some "gpt-4" }
      = .error "api_key is required for OpenAI provider"
  ∧ OpenAI_init { api_key := some "test-key", model := none }
      = .error "model is required for OpenAI provider" :=
  ⟨(init_config_validation _).1 rfl, (init_config_validation _).2 rfl rfl⟩

/-- C3: construction resolves `timeout` from the config (default 60)
and binds the client to the resolved `api_key` and `timeout`, but the
configured `base_url` is never read: the client keeps the SDK default
endpoint even when the config carries a custom `base_url` — the input
of the repository's own `test_init_custom_base_url` test. -/
theorem init_ignores_base_url :
    OpenAI_init cfgCustom = .ok provCustom
  ∧ provCustom.client.api_key = "test-key"
  ∧ provCustom.client.timeout = DEFAULT_TIMEOUT
  ∧ cfgCustom.base_url = some "https://custom.openai.com"
  ∧ provCustom.client.base_url = sdkDefaultBaseUrl
  ∧ provCustom.client.base_url ≠ "https://custom.openai.com" :=
  ⟨rfl, rfl, rfl, rfl, rfl, by decide⟩

/-- C9: one `generate` invocation consumes exactly one outcome from
the transport queue — on every success and every failure path — and its
result depends only on that single outcome, not on the rest of the
queue: no retry, no caching, no state carried between calls. -/
theorem generate_single_transport_call (d : InterfaceDefaults)
    (jl : String → Option PyObj) (p : OpenAIProvider) (prompt : String)
    (sch : Option Schema) (o : TransportOutcome) (rest : List TransportOutcome) :
    (generateRun d jl p prompt sch (o :: rest)).2 = rest
  ∧ (generateRun d jl p prompt sch (o :: rest)).1 = generateOnce d jl p prompt sch o :=
  ⟨rfl, rfl⟩

/-- A concrete string of 101 characters, one over the truncation cap. -/
def longStr : String := String.mk (List.replicate 101 'x')

/-- C5: in structured mode, a parse failure on extracted text `s`
yields the classified `ValueError` whose message embeds
`truncateForError s`; for `s` over 100 characters that is exactly the
first 100 characters of `s` followed by the `"..."` marker — a strict
prefix, never the full string — and for `s` of at most 100 characters
it is `s` itself. -/
theorem json_parse_error_truncation (d : InterfaceDefaults)
    (jl : String → Option PyObj) (p : OpenAIProvider) (prompt s : String)
    (sch : Option Schema) (hs : truthyDict sch = true) (hjl : jl s = none) :
    (generateOnce d jl p prompt sch (.success (wrapContent (.pystr s)))
      = .error (.valueError (jsonParseErrMsg s)))
  ∧ (s.length > 100 →
      jsonParseErrMsg s
        = "Error JSON parsing response (first 100 chars): " ++ (strTake s 100 ++ "...")
      ∧ (strTake s 100).length = 100
      ∧ strTake s 100 ≠ s)
  ∧ (s.length ≤ 100 →
      jsonParseErrMsg s = "Error JSON parsing response (first 100 chars): " ++ s) := by
  refine ⟨?_, ?_, ?_⟩
  · simp [generateOnce, extractContent_wrapContent, hs, hjl]
  · intro hlen
    have hd : 100 < s.data.length := hlen
    refine ⟨?_, ?_, ?_⟩
    · simp [jsonParseErrMsg, truncateForError, hlen]
    · show (s.data.take 100).length = 100
      rw [List.length_take]
      omega
    · intro heq
      have hl := congrArg String.length heq
      rw [show (strTake s 100).length = (s.data.take 100).length from rfl,
        List.length_take] at hl
      have h2 : s.length = s.data.length := rfl
      omega
  · intro hle
    have hng : ¬(s.length > 100) := by omega
    simp [jsonParseErrMsg, truncateForError, hng]

/-- Witness for C5: a 101-character string which every parse rejects,
under a non-empty schema. -/
theorem json_parse_error_truncation_witness :
    (generateOnce d0 jlNone prov0 "p" (some [("a", PyObj.pystr "b")])
        (.success (wrapContent (.pystr longStr)))
      = .error (.valueError (jsonParseErrMsg longStr)))
  ∧ (longStr.length > 100 →
      jsonParseErrMsg longStr
        = "Error JSON parsing response (first 100 chars): " ++ (strTake longStr 100 ++ "...")
      ∧ (strTake longStr 100).length = 100
      ∧ strTake longStr 100 ≠ longStr)
  ∧ (longStr.length ≤ 100 →
      jsonParseErrMsg longStr
        = "Error JSON parsing response (first 100 chars): " ++ longStr) :=
  json_parse_error_truncation d0 jlNone prov0 "p" longStr
    (some [("a", PyObj.pystr "b")]) rfl rfl

/-- C8: whenever extraction fails with one of the caught exceptions
(`AttributeError`, `IndexError`, `KeyError`), the resulting error
message is the constant `unexpectedStructureMsg`, independent of the
response body: two runs differing only in the malformed body produce
identical errors. -/
theorem shape_error_message_constant (d : InterfaceDefaults)
    (jl : String → Option PyObj) (p : OpenAIProvider) (prompt : String)
    (sch : Option Schema) (resp resp' : PyObj) (e e' : Exc)
    (h : extractContent resp = .error e) (he : e ≠ .typeError)
    (h' : extractContent resp' = .error e') (he' : e' ≠ .typeError) :
    generateOnce d jl p prompt sch (.success resp)
      = .error (.valueError unexpectedStructureMsg)
  ∧ generateOnce d jl p prompt sch (.success resp')
      = generateOnce d jl p prompt sch (.success resp) := by
  exact ⟨shape_branch_const d jl p prompt sch resp e h he,
    by rw [shape_branch_const d jl p prompt sch resp e h he,
      shape_branch_const d jl p prompt sch resp' e' h' he']⟩

/-- Witness for C8: an empty choices list and a response missing the
`choices` attribute produce the same constant error. -/
theorem shape_error_message_constant_witness :
    generateOnce d0 jlNone prov0 "p" none (.success (.obj [("choices", .pylist [])]))
      = .error (.valueError unexpectedStructureMsg)
  ∧ generateOnce d0 jlNone prov0 "p" none (.success (.obj []))
      = generateOnce d0 jlNone prov0 "p" none (.success (.obj [("choices", .pylist [])])) :=
  shape_error_message_constant d0 jlNone prov0 "p" none
    (.obj [("choices", .pylist [])]) (.obj []) .indexError .attrError
    rfl (by decide) rfl (by decide)

/-- C10: in structured mode, a well-shaped response whose content is
`None` (not a string) makes `json.loads` raise a `TypeError`, which no
handler in `generate` catches: the failure escapes the classified
`ValueError` taxonomy. -/
theorem structured_none_content_escapes (d : InterfaceDefaults)
    (jl : String → Option PyObj) (p : OpenAIProvider) (prompt : String)
    (sch : Option Schema) (hs : truthyDict sch = true) :
    generateOnce d jl p prompt sch (.success (wrapContent .pynone))
      = .error (.typeError "the JSON object must be str, bytes or bytearray")
  ∧ isValueError (generateOnce d jl p prompt sch (.success (wrapContent .pynone)))
      = false := by
  have h1 : generateOnce d jl p prompt sch (.success (wrapContent .pynone))
      = .error (.typeError "the JSON object must be str, bytes or bytearray") := by
    simp [generateOnce, extractContent_wrapContent, hs]
  exact ⟨h1, by rw [h1]; rfl⟩

/-- Witness for C10: a concrete non-empty schema and a `None` content. -/
theorem structured_none_content_escapes_witness :
    generateOnce d0 jlNone prov0 "p" (some [("type", PyObj.pystr "object")])
        (.success (wrapContent .pynone))
      = .error (.typeError "the JSON object must be str, bytes or bytearray")
  ∧ isValueError (generateOnce d0 jlNone prov0 "p" (some [("type", PyObj.pystr "object")])
        (.success (wrapContent .pynone))) = false :=
  structured_none_content_escapes d0 jlNone prov0 "p"
    (some [("type", PyObj.pystr "object")]) rfl

/-- C6: for a provider produced by construction, every payload carries
the configured model, the single user message holding the prompt, and
`max_tokens`, `temperature` and `top_p` each resolved from the config
with the interface-level default as fallback. -/
theorem request_payload_fields (d : InterfaceDefaults) (cfg : Config)
    (p : OpenAIProvider) (prompt : String) (sch : Option Schema)
    (h : OpenAI_init cfg = .ok p) :
    (buildCreateKwargs d p prompt sch).model = p.model
  ∧ cfg.model = some p.model
  ∧ (buildCreateKwargs d p prompt sch).messages = [{ role := "user", content := prompt }]
  ∧ (buildCreateKwargs d p prompt sch).max_tokens
      = cfg.max_output_tokens.getD d.max_output_tokens
  ∧ (buildCreateKwargs d p prompt sch).temperature = cfg.temperature.getD d.temperature
  ∧ (buildCreateKwargs d p prompt sch).top_p = cfg.top_p.getD d.top_p := by
  by_cases h1 : truthyStr cfg.api_key
  · by_cases h2 : truthyStr cfg.model
    · simp [OpenAI_init, h1, h2] at h
      subst h
      refine ⟨rfl, ?_, rfl, rfl, rfl, rfl⟩
      cases hm : cfg.model with
      | none => rw [hm] at h2; exact absurd h2 (by decide)
      | some s => rfl
    · simp [OpenAI_init, h1, h2] at h
  · simp [OpenAI_init, h1] at h

/-- Witness for C6: the payload of the provider built from `cfg0`. -/
theorem request_payload_fields_witness :
    (buildCreateKwargs d0 prov0 "hi" none).model = prov0.model
  ∧ cfg0.model = some prov0.model
  ∧ (buildCreateKwargs d0 prov0 "hi" none).messages = [{ role := "user", content := "hi" }]
  ∧ (buildCreateKwargs d0 prov0 "hi" none).max_tokens
      = cfg0.max_output_tokens.getD d0.max_output_tokens
  ∧ (buildCreateKwargs d0 prov0 "hi" none).temperature = cfg0.temperature.getD d0.temperature
  ∧ (buildCreateKwargs d0 prov0 "hi" none).top_p = cfg0.top_p.getD d0.top_p :=
  request_payload_fields d0 cfg0 prov0 "hi" none rfl

/-- C7: request building is a pure function — two invocations on the
same inputs produce the same payload, and any two providers agreeing on
config and model (whatever else, e.g. the client handle, differs)
produce identical payloads. -/
theorem request_payload_deterministic (d : InterfaceDefaults)
    (p q : OpenAIProvider) (prompt : String) (sch : Option Schema)
    (hc : p.config = q.config) (hm : p.model = q.model) :
    buildCreateKwargs d p prompt sch = buildCreateKwargs d p prompt sch
  ∧ buildCreateKwargs d p prompt sch = buildCreateKwargs d q prompt sch := by
  refine ⟨rfl, ?_⟩
  simp [buildCreateKwargs, hc, hm]

/-- Witness for C7: two providers sharing config and model but holding
distinct client handles build the same payload. -/
theorem request_payload_deterministic_witness :
    buildCreateKwargs d0 prov0 "p" none = buildCreateKwargs d0 prov0 "p" none
  ∧ buildCreateKwargs d0 prov0 "p" none = buildCreateKwargs d0 prov0alt "p" none :=
  request_payload_deterministic d0 prov0 prov0alt "p" none rfl rfl

/-- C4 counterexample: the empty dict is a supplied `response_schema`,
yet (being falsy) the payload does not signal structured mode and
`generate` returns the raw text. -/
theorem empty_schema_not_structured :
    truthyDict (some ([] : Schema)) = false
  ∧ (buildCreateKwargs d0 prov0 "p" (some ([] : Schema))).response_format = none
  ∧ generateOnce d0 jlNone prov0 "p" (some ([] : Schema))
      (.success (wrapContent (.pystr "hello")))
      = .ok (.text (.pystr "hello")) :=
  ⟨rfl, rfl, rfl⟩

/-- C4 amended: with `response_schema` omitted the payload never
signals structured mode and a successful extraction is returned as raw
text; with a truthy (non-empty) schema the payload always carries
`response_format = json_object` and no outcome whatsoever yields raw
text. -/
theorem structured_mode_exclusivity (d : InterfaceDefaults)
    (jl : String → Option PyObj) (p : OpenAIProvider) (prompt : String) :
    (buildCreateKwargs d p prompt none).response_format = none
  ∧ (∀ (resp c : PyObj), extractContent resp = .ok c →
      generateOnce d jl p prompt none (.success resp) = .ok (.text c))
  ∧ (∀ sch : Option Schema, truthyDict sch = true →
      (buildCreateKwargs d p prompt sch).response_format = some { type := "json_object" })
  ∧ (∀ (sch : Option Schema) (o : TransportOutcome), truthyDict sch = true →
      isRawText (generateOnce d jl p prompt sch o) = false) := by
  refine ⟨rfl, ?_, ?_, ?_⟩
  · intro resp c h
    simp [generateOnce, h, truthyDict]
  · intro sch hs
    simp [buildCreateKwargs, hs]
  · intro sch o hs
    cases o with
    | timeout c => rfl
    | connectionError c => rfl
    | apiError c => rfl
    | otherOpenAIError c => rfl
    | success resp =>
      cases hr : extractContent resp with
      | error e => cases e <;> simp [generateOnce, hr, isRawText]
      | ok c =>
        cases c with
        | pystr s => cases hjl : jl s <;> simp [generateOnce, hr, hs, hjl, isRawText]
        | obj fs => simp [generateOnce, hr, hs, isRawText]
        | pylist xs => simp [generateOnce, hr, hs, isRawText]
        | pynone => simp [generateOnce, hr, hs, isRawText]

/-- Witness for C4: a non-empty schema signals structured mode and
never yields raw text; no schema yields the raw text. -/
theorem structured_mode_exclusivity_witness :
    (buildCreateKwargs d0 prov0 "p" (some [("a", PyObj.pystr "b")])).response_format
      = some { type := "json_object" }
  ∧ isRawText (generateOnce d0 jlNone prov0 "p" (some [("a", PyObj.pystr "b")])
      (.success (wrapContent (.pystr "hello")))) = false
  ∧ generateOnce d0 jlNone prov0 "p" none (.success (wrapContent (.pystr "hello")))
      = .ok (.text (.pystr "hello")) :=
  ⟨(structured_mode_exclusivity d0 jlNone prov0 "p").2.2.1 _ rfl,
   (structured_mode_exclusivity d0 jlNone prov0 "p").2.2.2 _ _ rfl,
   (structured_mode_exclusivity d0 jlNone prov0 "p").2.1 _ _ rfl⟩

/-- C1 counterexample: a response whose shape does not match because
`choices` is `None` — a "wrong type" — raises an uncaught `TypeError`
(`None` is not subscriptable) instead of the classified
"Unexpected response structure" `ValueError`. -/
theorem wrong_type_choices_escapes :
    extractContent (.obj [("choices", .pynone)]) = .error .typeError
  ∧ generateOnce d0 jlNone prov0 "p" none (.success (.obj [("choices", .pynone)]))
      = .error (.typeError "unhandled TypeError during response extraction")
  ∧ isValueError (generateOnce d0 jlNone prov0 "p" none
      (.success (.obj [("choices", .pynone)]))) = false :=
  ⟨rfl, rfl, rfl⟩

/-- C1 amended: each failure cause maps to its own classified error
with a stable message prefix carried by no other class — a timeout to
"Request timed out", any other transport failure (connection or
vendor-declared API error) to "Error making request", a shape mismatch
surfacing as `AttributeError`/`IndexError`/`KeyError` to
"Unexpected response structure", and, in structured mode, a JSON parse
failure to "Error JSON parsing response"; a shape mismatch surfacing as
`TypeError` (e.g. `choices` being `None`) escapes the taxonomy
instead. -/
theorem error_classification (d : InterfaceDefaults)
    (jl : String → Option PyObj) (p : OpenAIProvider) (prompt : String)
    (sch : Option Schema) :
    (∀ c, generateOnce d jl p prompt sch (.timeout c)
        = .error (.valueError ("Request timed out: " ++ c))
      ∧ timeoutPre.data <+: ("Request timed out: " ++ c).data
      ∧ ¬ transportPre.data <+: ("Request timed out: " ++ c).data
      ∧ ¬ shapePre.data <+: ("Request timed out: " ++ c).data
      ∧ ¬ jsonPre.data <+: ("Request timed out: " ++ c).data)
  ∧ (∀ c, generateOnce d jl p prompt sch (.connectionError c)
        = .error (.valueError ("Error making request: " ++ c))
      ∧ generateOnce d jl p prompt sch (.apiError c)
        = .error (.valueError ("Error making request: " ++ c))
      ∧ transportPre.data <+: ("Error making request: " ++ c).data
      ∧ ¬ timeoutPre.data <+: ("Error making request: " ++ c).data
      ∧ ¬ shapePre.data <+: ("Error making request: " ++ c).data
      ∧ ¬ jsonPre.data <+: ("Error making request: " ++ c).data)
  ∧ (∀ (resp : PyObj) (e : Exc), extractContent resp = .error e → e ≠ .typeError →
      generateOnce d jl p prompt sch (.success resp)
        = .error (.valueError unexpectedStructureMsg))
  ∧ (shapePre.data <+: unexpectedStructureMsg.data
      ∧ ¬ timeoutPre.data <+: unexpectedStructureMsg.data
      ∧ ¬ transportPre.data <+: unexpectedStructureMsg.data
      ∧ ¬ jsonPre.data <+: unexpectedStructureMsg.data)
  ∧ (∀ s, truthyDict sch = true → jl s = none →
      generateOnce d jl p prompt sch (.success (wrapContent (.pystr s)))
        = .error (.valueError (jsonParseErrMsg s))
      ∧ jsonPre.data <+: (jsonParseErrMsg s).data
      ∧ ¬ timeoutPre.data <+: (jsonParseErrMsg s).data
      ∧ ¬ transportPre.data <+: (jsonParseErrMsg s).data
      ∧ ¬ shapePre.data <+: (jsonParseErrMsg s).data) := by
  refine ⟨?_, ?_, ?_, ⟨by decide, by decide, by decide, by decide⟩, ?_⟩
  · intro c
    refine ⟨rfl, prefix_append_str _ _ _ (by decide), ?_, ?_, ?_⟩
    · rw [show ("Request timed out: " ++ c).data
          = "Request timed out: ".data ++ c.data from rfl]
      exact not_prefix_append_of_take_ne _ 1 (by decide) (by decide) (by decide)
    · rw [show ("Request timed out: " ++ c).data
          = "Request timed out: ".data ++ c.data from rfl]
      exact not_prefix_append_of_take_ne _ 1 (by decide) (by decide) (by decide)
    · rw [show ("Request timed out: " ++ c).data
          = "Request timed out: ".data ++ c.data from rfl]
      exact not_prefix_append_of_take_ne _ 1 (by decide) (by decide) (by decide)
  · intro c
    refine ⟨rfl, rfl, prefix_append_str _ _ _ (by decide), ?_, ?_, ?_⟩
    · rw [show ("Error making request: " ++ c).data
          = "Error making request: ".data ++ c.data from rfl]
      exact not_prefix_append_of_take_ne _ 1 (by decide) (by decide) (by decide)
    · rw [show ("Error making request: " ++ c).data
          = "Error making request: ".data ++ c.data from rfl]
      exact not_prefix_append_of_take_ne _ 1 (by decide) (by decide) (by decide)
    · rw [show ("Error making request: " ++ c).data
          = "Error making request: ".data ++ c.data from rfl]
      exact not_prefix_append_of_take_ne _ 7 (by decide) (by decide) (by decide)
  · intro resp e hr he
    exact shape_branch_const d jl p prompt sch resp e hr he
  · intro s hs hjl
    refine ⟨by simp [generateOnce, extractContent_wrapContent, hs, hjl],
      prefix_append_str jsonPre "Error JSON parsing response (first 100 chars): "
        (truncateForError s) (by decide), ?_, ?_, ?_⟩
    · show ¬ timeoutPre.data
        <+: ("Error JSON parsing response (first 100 chars): " ++ truncateForError s).data
      rw [strData_append]
      exact not_prefix_append_of_take_ne _ 1 (by decide) (by decide) (by decide)
    · show ¬ transportPre.data
        <+: ("Error JSON parsing response (first 100 chars): " ++ truncateForError s).data
      rw [strData_append]
      exact not_prefix_append_of_take_ne _ 7 (by decide) (by decide) (by decide)
    · show ¬ shapePre.data
        <+: ("Error JSON parsing response (first 100 chars): " ++ truncateForError s).data
      rw [strData_append]
      exact not_prefix_append_of_take_ne _ 1 (by decide) (by decide) (by decide)

/-- Witness for C1: each failure class at a concrete input, including
the test suite's "not valid json" parse failure. -/
theorem error_classification_witness :
    generateOnce d0 jlNone prov0 "p" (some [("a", PyObj.pystr "b")]) (.timeout "t")
      = .error (.valueError ("Request timed out: " ++ "t"))
  ∧ generateOnce d0 jlNone prov0 "p" (some [("a", PyObj.pystr "b")]) (.connectionError "c")
      = .error (.valueError ("Error making request: " ++ "c"))
  ∧ generateOnce d0 jlNone prov0 "p" (some [("a", PyObj.pystr "b")])
        (.success (.obj [("choices", .pylist [])]))
      = .error (.valueError unexpectedStructureMsg)
  ∧ generateOnce d0 jlNone prov0 "p" (some [("a", PyObj.pystr "b")])
        (.success (wrapContent (.pystr "not valid json")))
      = .error (.valueError (jsonParseErrMsg "not valid json")) :=
  ⟨((error_classification d0 jlNone prov0 "p" (some [("a", PyObj.pystr "b")])).1 "t").1,
   ((error_classification d0 jlNone prov0 "p" (some [("a", PyObj.pystr "b")])).2.1 "c").1,
   (error_classification d0 jlNone prov0 "p" (some [("a", PyObj.pystr "b")])).2.2.1
     (.obj [("choices", .pylist [])]) .indexError rfl (by decide),
   ((error_classification d0 jlNone prov0 "p" (some [("a", PyObj.pystr "b")])).2.2.2.2
     "not valid json" rfl rfl).1⟩

end Timesketch
